import Mathlib

/-!
Verification of the eTIMS invoice OCR extraction pipeline
(`discounting/utils/etims_parser.py` and `discounting/utils/ocr_extractor.py`).

Shallow embedding conventions:
* Python strings are Lean `String` / `List Char` (ASCII character classes for
  `isalpha` / `isdigit` / `isalnum` / whitespace, which is what the OCR text and
  the regex patterns produce).
* Python `Decimal` values are modelled as exact rationals `ℚ`; float confidences
  are likewise modelled as `ℚ` (the claims under scrutiny are about exact
  arithmetic structure, not rounding of the binary floats).
* A Python function that can raise is modelled as `Except String α`, the error
  string being `str(e)` of the exception.
* The Python `re` module is an external dependency; `re.search` is modelled as
  an oracle parameter `rs : String → String → Option ReMatch` mapping a pattern
  string and a subject text to an optional match object (capture groups plus
  `lastindex`).  Theorems either hold for every oracle or instantiate it with a
  concrete table recording the behaviour of Python `re` on concrete inputs.
-/

/-! ## Python character classes and string helpers -/

instance {ε α : Type} [DecidableEq ε] [DecidableEq α] : DecidableEq (Except ε α) := fun x y =>
  match x, y with
  | Except.ok a, Except.ok b =>
    match decEq a b with
    | isTrue h => isTrue (by rw [h])
    | isFalse h => isFalse (by intro he; cases he; exact h rfl)
  | Except.ok _, Except.error _ => isFalse (by intro h; cases h)
  | Except.error _, Except.ok _ => isFalse (by intro h; cases h)
  | Except.error a, Except.error b =>
    match decEq a b with
    | isTrue h => isTrue (by rw [h])
    | isFalse h => isFalse (by intro he; cases he; exact h rfl)

/-- ASCII uppercase or lowercase letter (Python `str.isalpha` on the ASCII texts
at hand). -/
def pyIsAlpha (c : Char) : Bool :=
  decide ('A' ≤ c ∧ c ≤ 'Z') || decide ('a' ≤ c ∧ c ≤ 'z')

/-- ASCII digit (Python `str.isdigit`). -/
def pyIsDigit (c : Char) : Bool :=
  decide ('0' ≤ c ∧ c ≤ '9')

/-- ASCII alphanumeric character (Python `str.isalnum`). -/
def pyIsAlnum (c : Char) : Bool :=
  pyIsAlpha c || pyIsDigit c

/-- Python whitespace characters (the set recognised by `str.strip` and
`str.split()`). -/
def pyIsSpace (c : Char) : Bool :=
  c == ' ' || c == '\t' || c == '\n' || c == '\r' || c == '\x0b' || c == '\x0c'

/-- Python `str.strip()` on a character list: drop whitespace from both ends. -/
def pyStripL (l : List Char) : List Char :=
  ((l.dropWhile pyIsSpace).reverse.dropWhile pyIsSpace).reverse

/-- Python `str.strip()`. -/
def pyStripS (s : String) : String :=
  String.mk (pyStripL s.data)

/-- Python truthiness test of a string: `""` is falsy.  (Defined on the
character list so that it reduces on symbolic strings.) -/
def pyStrIsEmpty (s : String) : Bool :=
  s.data.isEmpty

/-- Python truthiness of an optional string (`None` and `""` are falsy). -/
def pyTruthy (o : Option String) : Bool :=
  match o with
  | some s => !pyStrIsEmpty s
  | none => false

/-- Numeric value of a base-10 digit string. -/
def natOfDigits (l : List Char) : Nat :=
  l.foldl (fun n c => 10 * n + (c.toNat - 48)) 0

/-- Replace the letter O by the digit 0 (the per-character OCR-confusion fix). -/
def mapO0 (l : List Char) : List Char :=
  l.map (fun c => if c = 'O' then '0' else c)

/-! ## `ETIMSInvoiceParser.parse_amount`

`parse_amount` removes commas and spaces and feeds the result to
`decimal.Decimal`.  The `Decimal` constructor is modelled for finite numeric
strings: optional surrounding whitespace, optional sign, digits with an
optional fractional part, and an optional decimal exponent; the value is the
exact rational it denotes.  Strings outside this grammar yield `none`
(`InvalidOperation` is caught by `parse_amount`, which returns `None`). -/

/-- Optional leading sign of a numeric string. -/
def parseSign (l : List Char) : Int × List Char :=
  match l with
  | [] => (1, [])
  | c :: t => if c = '+' then (1, t) else if c = '-' then (-1, t) else (1, c :: t)

/-- A signed all-digit integer consuming the whole remaining input. -/
def parseSignedInt (l : List Char) : Option Int :=
  let (sg, t) := parseSign l
  let ds := t.takeWhile pyIsDigit
  let r := t.dropWhile pyIsDigit
  if ds = [] ∨ r ≠ [] then none else some (sg * (natOfDigits ds : Int))

/-- The optional exponent suffix of a decimal numeric string
(empty, or `e`/`E` followed by a signed integer). -/
def parseExpPart (l : List Char) : Option Int :=
  match l with
  | [] => some 0
  | 'e' :: t => parseSignedInt t
  | 'E' :: t => parseSignedInt t
  | _ => none

/-- The exact rational `sg * digits * 10 ^ eTot`, built with a single `mkRat`
so that it is kernel-reducible. -/
def decValue (sg : Int) (digits : Nat) (eTot : Int) : ℚ :=
  match eTot with
  | Int.ofNat k => mkRat (sg * (digits : Int) * ((10 ^ k : Nat) : Int)) 1
  | Int.negSucc k => mkRat (sg * (digits : Int)) (10 ^ (k + 1))

/-- Exact value of a finite `decimal.Decimal` numeric string, if well formed:
with integral digits `ip`, fractional digits `fp` and exponent `e`, the value
is `sign * (digits of ip ++ fp) * 10 ^ (e - |fp|)`. -/
def parseDecimalL (l0 : List Char) : Option ℚ :=
  let l := pyStripL l0
  let (sg, t) := parseSign l
  let ip := t.takeWhile pyIsDigit
  let r1 := t.dropWhile pyIsDigit
  match r1 with
  | '.' :: r2 =>
    let fp := r2.takeWhile pyIsDigit
    let r3 := r2.dropWhile pyIsDigit
    if ip = [] ∧ fp = [] then none
    else
      match parseExpPart r3 with
      | some e => some (decValue sg (natOfDigits (ip ++ fp)) (e - fp.length))
      | none => none
  | _ =>
    if ip = [] then none
    else
      match parseExpPart r1 with
      | some e => some (decValue sg (natOfDigits ip) e)
      | none => none

/-- `ETIMSInvoiceParser.parse_amount` (etims_parser.py lines 151-170): falsy
input returns `None`; otherwise commas and spaces are removed and the result is
parsed as an exact `Decimal`, with parse failures caught and turned into
`None`. -/
def parse_amount (s : String) : Option ℚ :=
  if pyStrIsEmpty s then none
  else parseDecimalL (s.data.filter (fun c => !(c == ',' || c == ' ')))

/-! ## `ETIMSInvoiceParser.parse_date`

`datetime.strptime` is modelled per format: each directive `%m`/`%d` is the
ordered regex alternation CPython compiles it to (`1[0-2]|0[1-9]|[1-9]` for the
month, `3[01]|[12]\d|0[1-9]|[1-9]` for the day), `%Y` is exactly four digits,
`%y` exactly two (mapped to 1969-2068), the whole token must be consumed, and
the resulting triple must be a valid calendar date (`datetime` range checks).
Formats are tried in the order of the `date_formats` list; a raising
`split()[0]` on a whitespace-only string is modelled as `Except.error`. -/

/-- Month directive `%m`: alternatives in CPython regex order, value and rest. -/
def monthAlts (l : List Char) : List (Nat × List Char) :=
  (match l with
   | '1' :: c :: r =>
     if decide ('0' ≤ c ∧ c ≤ '2') then [(10 + (c.toNat - 48), r)] else []
   | _ => []) ++
  (match l with
   | '0' :: c :: r =>
     if decide ('1' ≤ c ∧ c ≤ '9') then [(c.toNat - 48, r)] else []
   | _ => []) ++
  (match l with
   | c :: r =>
     if decide ('1' ≤ c ∧ c ≤ '9') then [(c.toNat - 48, r)] else []
   | _ => [])

/-- Day directive `%d`: alternatives in CPython regex order, value and rest. -/
def dayAlts (l : List Char) : List (Nat × List Char) :=
  (match l with
   | '3' :: c :: r =>
     if decide ('0' ≤ c ∧ c ≤ '1') then [(30 + (c.toNat - 48), r)] else []
   | _ => []) ++
  (match l with
   | a :: b :: r =>
     if decide ('1' ≤ a ∧ a ≤ '2') && pyIsDigit b then
       [(10 * (a.toNat - 48) + (b.toNat - 48), r)]
     else []
   | _ => []) ++
  (match l with
   | '0' :: c :: r =>
     if decide ('1' ≤ c ∧ c ≤ '9') then [(c.toNat - 48, r)] else []
   | _ => []) ++
  (match l with
   | c :: r =>
     if decide ('1' ≤ c ∧ c ≤ '9') then [(c.toNat - 48, r)] else []
   | _ => [])

/-- Year directive `%Y`: exactly four digits. -/
def year4 (l : List Char) : Option (Nat × List Char) :=
  match l with
  | a :: b :: c :: d :: r =>
    if pyIsDigit a && pyIsDigit b && pyIsDigit c && pyIsDigit d then
      some (natOfDigits [a, b, c, d], r)
    else none
  | _ => none

/-- Year directive `%y`: exactly two digits, pivoting at 69 as CPython does. -/
def year2 (l : List Char) : Option (Nat × List Char) :=
  match l with
  | a :: b :: r =>
    if pyIsDigit a && pyIsDigit b then
      let v := natOfDigits [a, b]
      some (if v ≤ 68 then 2000 + v else 1900 + v, r)
    else none
  | _ => none

/-- A literal separator character. -/
def litSep (c : Char) (l : List Char) : Option (List Char) :=
  match l with
  | x :: r => if x = c then some r else none
  | [] => none

/-- Backtracking over the alternative list of a directive. -/
def tryAlts {α : Type} (alts : List (Nat × List Char)) (k : Nat → List Char → Option α) :
    Option α :=
  match alts with
  | [] => none
  | (v, r) :: rest =>
    match k v r with
    | some x => some x
    | none => tryAlts rest k

/-- Format `%Y sep %m sep %d`, anchored to the whole token. -/
def fmtYMD (sep : Char) (l : List Char) : Option (Nat × Nat × Nat) :=
  match year4 l with
  | none => none
  | some (y, r1) =>
    (litSep sep r1).bind fun r2 =>
    tryAlts (monthAlts r2) fun m r3 =>
    (litSep sep r3).bind fun r4 =>
    tryAlts (dayAlts r4) fun d r5 =>
    if r5 = [] then some (y, m, d) else none

/-- Format `%d sep %m sep %Y`, anchored to the whole token. -/
def fmtDMY (sep : Char) (l : List Char) : Option (Nat × Nat × Nat) :=
  tryAlts (dayAlts l) fun d r1 =>
  (litSep sep r1).bind fun r2 =>
  tryAlts (monthAlts r2) fun m r3 =>
  (litSep sep r3).bind fun r4 =>
  match year4 r4 with
  | some (y, r5) => if r5 = [] then some (y, m, d) else none
  | none => none

/-- Format `%d sep %m sep %y`, anchored to the whole token. -/
def fmtDMY2 (sep : Char) (l : List Char) : Option (Nat × Nat × Nat) :=
  tryAlts (dayAlts l) fun d r1 =>
  (litSep sep r1).bind fun r2 =>
  tryAlts (monthAlts r2) fun m r3 =>
  (litSep sep r3).bind fun r4 =>
  match year2 r4 with
  | some (y, r5) => if r5 = [] then some (y, m, d) else none
  | none => none

/-- Gregorian leap year, as `datetime` uses. -/
def isLeap (y : Nat) : Bool :=
  y % 4 = 0 && (y % 100 ≠ 0 || y % 400 = 0)

/-- Days in a month, as `datetime` validates. -/
def daysInMonth (y m : Nat) : Nat :=
  if m = 2 then (if isLeap y then 29 else 28)
  else if m = 4 ∨ m = 6 ∨ m = 9 ∨ m = 11 then 30 else 31

/-- The `datetime(year, month, day)` range check (raises `ValueError` when it
fails, which `parse_date` treats as this format not matching). -/
def mkDate (t : Nat × Nat × Nat) : Option (Nat × Nat × Nat) :=
  if 1 ≤ t.1 ∧ t.1 ≤ 9999 ∧ t.2.2 ≤ daysInMonth t.1 t.2.1 then some t else none

/-- First `some` in a list of attempts. -/
def firstSome {α : Type} (l : List (Option α)) : Option α :=
  (l.filterMap id).head?

/-- The `date_formats` list of `parse_date`, tried in order; each attempt is
`strptime` followed by the `datetime` range check. -/
def strptimeFirst (l : List Char) : Option (Nat × Nat × Nat) :=
  firstSome
    [(fmtYMD '-' l).bind mkDate,
     (fmtYMD '/' l).bind mkDate,
     (fmtDMY '/' l).bind mkDate,
     (fmtDMY '-' l).bind mkDate,
     (fmtDMY2 '/' l).bind mkDate,
     (fmtDMY2 '-' l).bind mkDate]

/-- Zero-padded decimal rendering used by `strftime`. -/
def padNum (w n : Nat) : String :=
  let s := toString n
  String.mk (List.replicate (w - s.length) '0' ++ s.data)

/-- `strftime("%Y-%m-%d")` on a parsed date. -/
def fmtISO (t : Nat × Nat × Nat) : String :=
  padNum 4 t.1 ++ "-" ++ padNum 2 t.2.1 ++ "-" ++ padNum 2 t.2.2

/-- Split at every whitespace character, keeping (possibly empty) chunks. -/
def splitWSGo : List Char → List Char → List (List Char)
  | [], acc => [acc.reverse]
  | c :: rest, acc =>
    if pyIsSpace c then acc.reverse :: splitWSGo rest []
    else splitWSGo rest (c :: acc)

/-- Python `str.split()` with no separator: whitespace-run splitting with
empty chunks discarded. -/
def pySplitWhitespace (l : List Char) : List (List Char) :=
  (splitWSGo l []).filter (fun t => !t.isEmpty)

/-- `ETIMSInvoiceParser.parse_date` (etims_parser.py lines 172-206).  Falsy
input returns `None`; otherwise `date_str.split()[0]` keeps the first
whitespace-separated token — raising `IndexError` (modelled as `Except.error
"list index out of range"`) when the non-empty string is all whitespace — and
the format list is tried in order, the first success being rendered back as
`YYYY-MM-DD`; no format matching yields `None`. -/
def parse_date (s : String) : Except String (Option String) :=
  if pyStrIsEmpty s then Except.ok none
  else
    match pySplitWhitespace s.data with
    | [] => Except.error "list index out of range"
    | tok :: _ => Except.ok ((strptimeFirst (pyStripL tok)).map fmtISO)

/-! ## `ETIMSInvoiceParser.cleanup_kra_pin` and `validate_kra_pin` -/

/-- First fix-up stage of `cleanup_kra_pin` (lines 221-226): on a 12-character
pin, turn a letter followed by `O` into the letter followed by `0`; the `elif`
arm repeats the special case for a literal `PO` prefix. -/
def pinFixPO (p : List Char) : List Char :=
  if p.length = 12 ∧ pyIsAlpha (p.getD 0 ' ') ∧ p.getD 1 ' ' = 'O' then
    p.getD 0 ' ' :: '0' :: p.drop 2
  else if p.length = 12 ∧ p.take 2 = ['P', 'O'] then
    'P' :: '0' :: p.drop 2
  else p

/-- Second stage (lines 228-238): for pins of length at least 11, keep the
first and last characters and replace `O` by `0` in all middle positions. -/
def pinFixO0 (p : List Char) : List Char :=
  if 11 ≤ p.length then
    p.getD 0 ' ' :: (mapO0 ((p.drop 1).dropLast) ++ [p.getLastD ' '])
  else p

/-- Third stage (lines 240-243): a 12-character pin whose first two characters
are letters keeps only the first of them. -/
def pinDrop12 (p : List Char) : List Char :=
  if p.length = 12 ∧ p.take 2 ≠ [] ∧ (p.take 2).all pyIsAlpha then
    p.getD 0 ' ' :: p.drop 2
  else p

/-- `ETIMSInvoiceParser.cleanup_kra_pin` (etims_parser.py lines 208-245). -/
def cleanup_kra_pin (s : String) : String :=
  if pyStrIsEmpty s then s
  else String.mk (pinDrop12 (pinFixO0 (pinFixPO s.data)))

/-- `ETIMSInvoiceParser.validate_kra_pin` (etims_parser.py lines 247-262):
non-empty, exactly 11 characters, all alphanumeric. -/
def validate_kra_pin (s : String) : Bool :=
  if pyStrIsEmpty s || s.length ≠ 11 then false
  else s.data.all pyIsAlnum

/-! ## The regex pattern tables (etims_parser.py lines 18-75)

The pattern strings are kept verbatim (repetition braces written via `\x7b` /
`\x7d` escapes).  `re.search` itself is an oracle parameter; a match object
carries the list of capture groups (group *i* at list position *i-1*, `none`
for a group that did not participate) and Python's `match.lastindex`. -/

def invNumPat1 : String := "SCU\\s+ID\\s*:?\\s*([A-Z0-9]+)"
def invNumPat2 : String := "(KRAS[RN][NO0]+\\d+/\\d+)"
def invNumPat3 : String := "Receipt\\s+Signature\\s*:?\\s*([A-Z0-9]\x7b10,\x7d)"
def invNumPat4 : String := "CU\\s+Invoice\\s+Number\\s*:?\\s*\\n.*?([A-Z0-9]+/\\d+)"
def amtPat1 : String := "Total\\s+Amount\\s*:?\\s*(?:KES|KSH)?\\s*([0-9,]+\\.?\\d*)"
def amtPat2 : String := "Grand\\s*Total\\s*:?\\s*(?:KES|KSH)?\\s*([0-9,]+\\.?\\d*)"
def amtPat3 : String := "Amount\\s*(?:Due|Payable)\\s*:?\\s*(?:KES|KSH)?\\s*([0-9,]+\\.?\\d*)"
def amtPat4 : String := "Total\\s*:?\\s*(?:KES|KSH)?\\s*([0-9,]+\\.?\\d*)"
def invDatePat1 : String := "Date\\s+Created\\s*:?\\s*(\\d\x7b4\x7d-\\d\x7b2\x7d-\\d\x7b2\x7d)"
def invDatePat2 : String := "Invoice\\s*Date\\s*:?\\s*(\\d\x7b4\x7d-\\d\x7b2\x7d-\\d\x7b2\x7d)"
def invDatePat3 : String := "Date\\s*:?\\s*(\\d\x7b4\x7d-\\d\x7b2\x7d-\\d\x7b2\x7d)"
def invDatePat4 : String :=
  "Date\\s+Created\\s*:?\\s*(\\d\x7b1,2\x7d[/-]\\d\x7b1,2\x7d[/-]\\d\x7b2,4\x7d)"
def invDatePat5 : String :=
  "Invoice\\s*Date\\s*:?\\s*(\\d\x7b1,2\x7d[/-]\\d\x7b1,2\x7d[/-]\\d\x7b2,4\x7d)"
def duePat1 : String := "Due\\s*Date\\s*:?\\s*(\\d\x7b4\x7d-\\d\x7b2\x7d-\\d\x7b2\x7d)"
def duePat2 : String := "Payment\\s*Due\\s*:?\\s*(\\d\x7b4\x7d-\\d\x7b2\x7d-\\d\x7b2\x7d)"
def duePat3 : String := "Due\\s*Date\\s*:?\\s*(\\d\x7b1,2\x7d[/-]\\d\x7b1,2\x7d[/-]\\d\x7b2,4\x7d)"
def duePat4 : String :=
  "Payment\\s*Due\\s*:?\\s*(\\d\x7b1,2\x7d[/-]\\d\x7b1,2\x7d[/-]\\d\x7b2,4\x7d)"
def supPat1 : String :=
  "(?:Sale\\s+From|Seller|Supplier).*?PIN\\s*:?\\s*([A-Z][0-9]\x7b9\x7d[A-Z])"
def supPat2 : String := "(?:^|\\n)PIN\\s*:?\\s*([A-Z][0-9]\x7b9\x7d[A-Z])"
def buyPat1 : String := "gmail\\.com\\s+PIN\\s*:?\\s*([A-Z]\x7b1,2\x7d[O0-9]\x7b9\x7d[A-Z])"
def buyPat2 : String := "@\\w+\\.\\w+\\s+PIN\\s*:?\\s*([A-Z]\x7b1,2\x7d[O0-9]\x7b9\x7d[A-Z])"
def buyPat3 : String := "email.*?PIN\\s*:?\\s*([A-Z]\x7b1,2\x7d[O0-9]\x7b9\x7d[A-Z])"
def buyPat4 : String :=
  "PIN\\s*:?\\s*[A-Z][0-9]\x7b9\x7d[A-Z].*?PIN\\s*:?\\s*([A-Z]\x7b1,2\x7d[O0-9]\x7b9\x7d[A-Z])"
def buyerNamePat1 : String :=
  "(?:WAMBUA|PERSON\\sNAME)\\s+([A-Z][A-Z\\s]+(?:LIMITED|LTD|SOLUTIONS))"
def buyerNamePat2 : String :=
  "\\s([A-Z]\x7b2,\x7d(?:\\s+[A-Z]+)*\\s+(?:LIMITED|LTD|SOLUTIONS))\\s+KRAS"
def buyerNamePat3 : String := "LIMITED\\s*\\nmuasya"
def sellerNamePat1 : String :=
  "CU\\s+Invoice\\s+Number\\s*:?\\s*\\n([A-Z]+\\s+[A-Z]+\\s+[A-Z]+)"
def sellerNamePat2 : String :=
  "Invoice\\s+Number\\s*:?\\s*\\n([A-Z]+(?:\\s+[A-Z]+)\x7b1,3\x7d)\\s+[A-Z]+(?:\\s+[A-Z]+)*\\s+(?:LIMITED|SOLUTIONS)"

/-- `ETIMSInvoiceParser.FIELD_PATTERNS`: ordered pattern lists per field. -/
def FIELD_PATTERNS : List (String × List String) :=
  [("invoice_number", [invNumPat1, invNumPat2, invNumPat3, invNumPat4]),
   ("invoice_amount", [amtPat1, amtPat2, amtPat3, amtPat4]),
   ("invoice_date", [invDatePat1, invDatePat2, invDatePat3, invDatePat4, invDatePat5]),
   ("due_date", [duePat1, duePat2, duePat3, duePat4]),
   ("supplier_kra_pin", [supPat1, supPat2]),
   ("buyer_kra_pin", [buyPat1, buyPat2, buyPat3, buyPat4])]

/-- `FIELD_PATTERNS.get(field_name, [])`. -/
def fieldPatterns (field : String) : List String :=
  (FIELD_PATTERNS.lookup field).getD []

/-- `BUYER_PATTERNS['name']`. -/
def BUYER_NAME_PATTERNS : List String :=
  [buyerNamePat1, buyerNamePat2, buyerNamePat3]

/-- `SELLER_PATTERNS['name']`. -/
def SELLER_NAME_PATTERNS : List String :=
  [sellerNamePat1, sellerNamePat2]

/-- A Python `re` match object: the capture groups (group `i` at list index
`i - 1`; `none` when the group did not participate in the match) and
`match.lastindex`. -/
structure ReMatch where
  groups : List (Option String)
  lastindex : Option Nat
  deriving DecidableEq

/-- `match.group(i)` for `i ≥ 1`, followed by `.strip()`: accessing a group
index the pattern does not have raises `IndexError("no such group")`; calling
`.strip()` on a non-participating group (`None`) raises `AttributeError`
(message quotes omitted). -/
def matchGroupStrip (m : ReMatch) (i : Nat) : Except String String :=
  match m.groups.get? (i - 1) with
  | none => Except.error "no such group"
  | some none => Except.error "NoneType object has no attribute strip"
  | some (some s) => Except.ok (pyStripS s)

/-- The group selection of `extract_field` (lines 96-101): with more than one
capturing group matched, the last one is used, otherwise group 1. -/
def selectGroup (m : ReMatch) : Except String String :=
  match m.lastindex with
  | some n => if 1 < n then matchGroupStrip m n else matchGroupStrip m 1
  | none => matchGroupStrip m 1

/-- Inner loop of `extract_field`: try patterns in order, first match wins. -/
def extractFieldGo (rs : String → String → Option ReMatch) (text : String) :
    List String → Except String (Option String)
  | [] => Except.ok none
  | p :: ps =>
    match rs p text with
    | some m =>
      match selectGroup m with
      | Except.ok v => Except.ok (some v)
      | Except.error e => Except.error e
    | none => extractFieldGo rs text ps

/-- `ETIMSInvoiceParser.extract_field` (etims_parser.py lines 80-107). -/
def extract_field (rs : String → String → Option ReMatch) (text field : String) :
    Except String (Option String) :=
  extractFieldGo rs text (fieldPatterns field)

/-- Shared loop of `extract_buyer_details` / `extract_seller_details`
(lines 122-126 and 143-147): first matching pattern sets `details['name']`
from `match.group(1).strip()`; the returned dict is modelled by the optional
name. -/
def extractNameGo (rs : String → String → Option ReMatch) (text : String) :
    List String → Except String (Option String)
  | [] => Except.ok none
  | p :: ps =>
    match rs p text with
    | some m =>
      match matchGroupStrip m 1 with
      | Except.ok v => Except.ok (some v)
      | Except.error e => Except.error e
    | none => extractNameGo rs text ps

/-! ## `ETIMSInvoiceParser.calculate_confidence` (lines 264-309) -/

/-- Score of `invoice_number` (lines 277-284): truthy values score 0.9 when of
length 5..30 with an alphanumeric character, 0.6 otherwise; falsy values 0. -/
def scoreInvNum (o : Option String) : ℚ :=
  match o with
  | some s =>
    if !pyStrIsEmpty s then
      if 5 ≤ s.length ∧ s.length ≤ 30 ∧ s.data.any pyIsAlnum then 9 / 10 else 6 / 10
    else 0
  | none => 0

/-- Score of a KRA PIN field (lines 300-307): 0.95 when truthy and valid,
0.5 when truthy but invalid, 0 otherwise. -/
def scorePin (o : Option String) : ℚ :=
  match o with
  | some p =>
    if !pyStrIsEmpty p then (if validate_kra_pin p then 19 / 20 else 1 / 2) else 0
  | none => 0

/-- The result record of `parse_invoice` (etims_parser.py lines 325-337);
`buyer_details` / `seller_details` are modelled by their optional `name`
entry, and `confidence_scores` is the insertion-ordered Python dict. -/
structure ParseResult where
  invoice_number : Option String
  invoice_amount : Option ℚ
  invoice_date : Option String
  due_date : Option String
  supplier_kra_pin : Option String
  buyer_kra_pin : Option String
  buyer_details : Option String
  seller_details : Option String
  confidence_scores : List (String × ℚ)
  extraction_success : Bool
  extraction_errors : List String
  deriving DecidableEq

/-- `ETIMSInvoiceParser.calculate_confidence`, reading the six scalar fields of
the (partial) result and producing the score dict in insertion order. -/
def calculate_confidence (r : ParseResult) : List (String × ℚ) :=
  [("invoice_number", scoreInvNum r.invoice_number),
   ("invoice_amount", if r.invoice_amount.isSome then 19 / 20 else 0),
   ("invoice_date", if pyTruthy r.invoice_date then 9 / 10 else 0),
   ("due_date", if pyTruthy r.due_date then 9 / 10 else 0),
   ("supplier_kra_pin", scorePin r.supplier_kra_pin),
   ("buyer_kra_pin", scorePin r.buyer_kra_pin)]

/-! ## `ETIMSInvoiceParser.parse_invoice` (lines 311-410)

The `try` block is a sequence of assignments; an exception raised at any point
jumps to the `except` handler, which appends `"Error parsing invoice: " ++
str(e)` to the error list and returns the result populated so far.  Each
modelled stage therefore takes the result accumulated so far and either
continues or returns it with the error appended. -/

/-- The freshly initialised result dict (lines 325-337). -/
def initResult : ParseResult :=
  { invoice_number := none, invoice_amount := none, invoice_date := none,
    due_date := none, supplier_kra_pin := none, buyer_kra_pin := none,
    buyer_details := none, seller_details := none, confidence_scores := [],
    extraction_success := false, extraction_errors := [] }

/-- One `try`-block step: on an exception, append the handler's message to the
result accumulated so far and return it; otherwise continue. -/
def pstep {α : Type} (r : ParseResult) (x : Except String α) (k : α → ParseResult) :
    ParseResult :=
  match x with
  | Except.error e =>
    { r with extraction_errors := r.extraction_errors ++ ["Error parsing invoice: " ++ e] }
  | Except.ok a => k a

/-- Final stage (lines 377-397): compute confidence scores, set
`extraction_success` from the two core fields, and append the
missing-core-fields error when they are not both present. -/
def parseStage8 (r0 : ParseResult) : ParseResult :=
  let r := { r0 with confidence_scores := calculate_confidence r0 }
  let core := pyTruthy r.invoice_number && r.invoice_amount.isSome
  let r := { r with extraction_success := core }
  if core then r
  else
    let missing :=
      (if !pyTruthy r.invoice_number then ["invoice_number"] else []) ++
      (if r.invoice_amount.isNone then ["invoice_amount"] else [])
    { r with extraction_errors :=
        r.extraction_errors ++
          ["Failed to extract core fields: " ++ String.intercalate ", " missing] }

/-- Seller-details stage (line 375). -/
def parseStage7 (rs : String → String → Option ReMatch) (s : String)
    (r : ParseResult) : ParseResult :=
  pstep r (extractNameGo rs s SELLER_NAME_PATTERNS) fun nm =>
    parseStage8 { r with seller_details := nm }

/-- Buyer-details stage (line 372). -/
def parseStage6 (rs : String → String → Option ReMatch) (s : String)
    (r : ParseResult) : ParseResult :=
  pstep r (extractNameGo rs s BUYER_NAME_PATTERNS) fun nm =>
    parseStage7 rs s { r with buyer_details := nm }

/-- Buyer-PIN stage (lines 367-369): a truthy extracted pin is cleaned up. -/
def parseStage5 (rs : String → String → Option ReMatch) (s : String)
    (r : ParseResult) : ParseResult :=
  pstep r (extract_field rs s "buyer_kra_pin") fun pO =>
    parseStage6 rs s
      (match pO with
       | some p => if !pyStrIsEmpty p then { r with buyer_kra_pin := some (cleanup_kra_pin p) } else r
       | none => r)

/-- Supplier-PIN stage (lines 363-365). -/
def parseStage4 (rs : String → String → Option ReMatch) (s : String)
    (r : ParseResult) : ParseResult :=
  pstep r (extract_field rs s "supplier_kra_pin") fun pO =>
    parseStage5 rs s
      (match pO with
       | some p => if !pyStrIsEmpty p then { r with supplier_kra_pin := some (cleanup_kra_pin p) } else r
       | none => r)

/-- Due-date stage (lines 358-360): a truthy extracted string is parsed
(`parse_date` may itself raise inside the `try` block). -/
def parseStage3 (rs : String → String → Option ReMatch) (s : String)
    (r : ParseResult) : ParseResult :=
  pstep r (extract_field rs s "due_date") fun dO =>
    match dO with
    | some d =>
      if !pyStrIsEmpty d then
        pstep r (parse_date d) fun dv => parseStage4 rs s { r with due_date := dv }
      else parseStage4 rs s r
    | none => parseStage4 rs s r

/-- Invoice-date stage (lines 353-355). -/
def parseStage2 (rs : String → String → Option ReMatch) (s : String)
    (r : ParseResult) : ParseResult :=
  pstep r (extract_field rs s "invoice_date") fun dO =>
    match dO with
    | some d =>
      if !pyStrIsEmpty d then
        pstep r (parse_date d) fun dv => parseStage3 rs s { r with invoice_date := dv }
      else parseStage3 rs s r
    | none => parseStage3 rs s r

/-- Amount stage (lines 348-350): a truthy extracted string is parsed to a
`Decimal` (`parse_amount` never raises). -/
def parseStage1 (rs : String → String → Option ReMatch) (s : String)
    (r : ParseResult) : ParseResult :=
  pstep r (extract_field rs s "invoice_amount") fun aO =>
    parseStage2 rs s
      { r with invoice_amount :=
          match aO with
          | some a => if !pyStrIsEmpty a then parse_amount a else none
          | none => none }

/-- Invoice-number stage (line 345). -/
def parseStage0 (rs : String → String → Option ReMatch) (s : String) : ParseResult :=
  pstep initResult (extract_field rs s "invoice_number") fun inv =>
    parseStage1 rs s { initResult with invoice_number := inv }

/-- The short-circuit result for absent or trivially short input
(lines 339-341). -/
def shortResult : ParseResult :=
  { initResult with extraction_errors := ["OCR text is empty or too short"] }

/-- `ETIMSInvoiceParser.parse_invoice` (etims_parser.py lines 311-410), over an
optional input text (`none` models Python `None`). -/
def parse_invoice (rs : String → String → Option ReMatch) (ocr_text : Option String) :
    ParseResult :=
  let short : Bool :=
    match ocr_text with
    | none => true
    | some s => pyStrIsEmpty s || decide ((pyStripL s.data).length < 10)
  if short then shortResult
  else parseStage0 rs (ocr_text.getD "")

/-! ## `ocr_extractor.py`: the recognition wrapper and the page-combining stage -/

/-- The per-page dict produced by `OCREngine.extract_text`
(ocr_extractor.py lines 139-149): recognised text, confidence, and an `error`
key present exactly when the backend raised. -/
structure PageOCR where
  text : String
  confidence : ℚ
  error : Option String
  deriving DecidableEq

/-- The token confidences the backend reported, with the `-1` sentinel
("no confidence available") filtered out (line 136). -/
def usableConfs (confs : List Int) : List Int :=
  confs.filter (fun c => c != -1)

/-- The page confidence computed by `OCREngine.extract_text` (lines 136-141):
mean of the usable token confidences (0 when there are none), divided by 100. -/
def engineConfidence (confs : List Int) : ℚ :=
  let cs := usableConfs confs
  (if cs.isEmpty then 0 else (cs.sum : ℚ) / cs.length) / 100

/-- The success branch of `OCREngine.extract_text`: stripped text plus the
normalized confidence, no `error` key. -/
def ocr_engine_extract (text : String) (confs : List Int) : PageOCR :=
  { text := pyStripS text, confidence := engineConfidence confs, error := none }

/-- The exception branch of `OCREngine.extract_text` (lines 143-149). -/
def ocr_engine_fail (msg : String) : PageOCR :=
  { text := "", confidence := 0, error := some msg }

/-- The document-level result of `OCRExtractor.extract_text`
(ocr_extractor.py lines 208-214). -/
structure OCRDocResult where
  success : Bool
  text : String
  confidence : ℚ
  pages : Nat
  errors : List String
  deriving DecidableEq

/-- The `all_text` list built by the page loop of `OCRExtractor.extract_text`
(lines 237-246): the texts of the pages whose recognition reported no error,
in page order. -/
def pageTexts : List PageOCR → List String
  | [] => []
  | p :: ps =>
    match p.error with
    | some _ => pageTexts ps
    | none => p.text :: pageTexts ps

/-- The `all_confidences` list built by the same loop. -/
def pageConfs : List PageOCR → List ℚ
  | [] => []
  | p :: ps =>
    match p.error with
    | some _ => pageConfs ps
    | none => p.confidence :: pageConfs ps

/-- The error entries appended by the same loop, pages numbered from `i`
(the source loop enumerates from 1). -/
def pageErrors (i : Nat) : List PageOCR → List String
  | [] => []
  | p :: ps =>
    match p.error with
    | some e => ("Page " ++ toString i ++ ": " ++ e) :: pageErrors (i + 1) ps
    | none => pageErrors (i + 1) ps

/-- The combining stage of `OCRExtractor.extract_text` (lines 231-256), given
the per-page recognition results of a validated, successfully converted file:
join the non-error pages with a blank line and average their confidences
(`if all_text:` tests the collected list), or report that no text could be
extracted. -/
def ocr_extract_text (pageResults : List PageOCR) : OCRDocResult :=
  if (pageTexts pageResults).isEmpty then
    { success := false, text := "", confidence := 0, pages := pageResults.length,
      errors := pageErrors 1 pageResults ++ ["No text could be extracted"] }
  else
    { success := true, text := String.intercalate "\n\n" (pageTexts pageResults),
      confidence := (pageConfs pageResults).sum / (pageConfs pageResults).length,
      pages := pageResults.length, errors := pageErrors 1 pageResults }

/-- The pages of a run whose recognition did not report an error. -/
def succeededPages (ps : List PageOCR) : List PageOCR :=
  ps.filter (fun p => p.error.isNone)

/-! ## Spec-side definitions used for comparison -/

/-- The field names of `ExtractedFields` as the specification lists them
(spec section 3): the six scalar fields plus the two detail records. -/
def specExtractedFieldNames : List String :=
  ["invoice_number", "invoice_amount", "invoice_date", "due_date",
   "supplier_kra_pin", "buyer_kra_pin", "buyer_details", "seller_details"]

/-- The field names `calculate_confidence` actually scores. -/
def confidenceFieldNames : List String :=
  ["invoice_number", "invoice_amount", "invoice_date", "due_date",
   "supplier_kra_pin", "buyer_kra_pin"]

/-! ## Helper lemmas -/

theorem pyIsDigit_ne {c x : Char} (h : pyIsDigit c = true) (hx : pyIsDigit x = false) :
    c ≠ x := by
  intro he
  rw [he, hx] at h
  exact Bool.noConfusion h

theorem pyIsDigit_not_space {c : Char} (h : pyIsDigit c = true) : pyIsSpace c = false := by
  have h1 : c ≠ ' ' := pyIsDigit_ne h (by decide)
  have h2 : c ≠ '\t' := pyIsDigit_ne h (by decide)
  have h3 : c ≠ '\n' := pyIsDigit_ne h (by decide)
  have h4 : c ≠ '\r' := pyIsDigit_ne h (by decide)
  have h5 : c ≠ '\x0b' := pyIsDigit_ne h (by decide)
  have h6 : c ≠ '\x0c' := pyIsDigit_ne h (by decide)
  simp [pyIsSpace, h1, h2, h3, h4, h5, h6]

theorem pyIsDigit_keep {c : Char} (h : pyIsDigit c = true) :
    (!(c == ',' || c == ' ')) = true := by
  have h1 : c ≠ ',' := pyIsDigit_ne h (by decide)
  have h2 : c ≠ ' ' := pyIsDigit_ne h (by decide)
  simp [h1, h2]

theorem dropWhile_of_all_neg {α : Type} {p : α → Bool} :
    ∀ {l : List α}, (∀ c ∈ l, p c = false) → l.dropWhile p = l := by
  intro l h
  cases l with
  | nil => rfl
  | cons a t => simp [List.dropWhile_cons, h a (List.mem_cons_self a t)]

theorem pyStripL_of_no_space {l : List Char} (h : ∀ c ∈ l, pyIsSpace c = false) :
    pyStripL l = l := by
  have h1 : l.dropWhile pyIsSpace = l := dropWhile_of_all_neg h
  have h2 : l.reverse.dropWhile pyIsSpace = l.reverse :=
    dropWhile_of_all_neg (fun c hc => h c (List.mem_reverse.mp hc))
  simp [pyStripL, h1, h2]

theorem takeWhile_append_cons {α : Type} {p : α → Bool} :
    ∀ (I : List α), (∀ c ∈ I, p c = true) → ∀ (x : α), p x = false → ∀ (R : List α),
      (I ++ x :: R).takeWhile p = I ∧ (I ++ x :: R).dropWhile p = x :: R := by
  intro I
  induction I with
  | nil =>
    intro _ x hx R
    exact ⟨by simp [List.takeWhile_cons, hx], by simp [List.dropWhile_cons, hx]⟩
  | cons a t ih =>
    intro hI x hx R
    have ha : p a = true := hI a (List.mem_cons_self a t)
    have ht := ih (fun c hc => hI c (List.mem_cons_of_mem a hc)) x hx R
    exact ⟨by simp [List.cons_append, List.takeWhile_cons, ha, ht.1],
      by simp [List.cons_append, List.dropWhile_cons, ha, ht.2]⟩

theorem natOfDigits_go (l : List Char) :
    ∀ n : Nat, List.foldl (fun n c => 10 * n + (c.toNat - 48)) n l
      = n * 10 ^ l.length + natOfDigits l := by
  induction l with
  | nil => intro n; simp [natOfDigits]
  | cons c t ih =>
    intro n
    have hc : natOfDigits (c :: t) = (c.toNat - 48) * 10 ^ t.length + natOfDigits t := by
      show List.foldl _ (10 * 0 + (c.toNat - 48)) t = _
      rw [ih]
      norm_num
    rw [List.foldl_cons, ih, hc, List.length_cons, pow_succ]
    ring

theorem natOfDigits_append (a b : List Char) :
    natOfDigits (a ++ b) = natOfDigits a * 10 ^ b.length + natOfDigits b := by
  unfold natOfDigits
  rw [List.foldl_append]
  exact natOfDigits_go b _

theorem pinFixPO_of_len_ne12 {p : List Char} (h : p.length ≠ 12) : pinFixPO p = p := by
  unfold pinFixPO
  rw [if_neg (fun hc => h hc.1), if_neg (fun hc => h hc.1)]

theorem pinDrop12_of_len_ne12 {p : List Char} (h : p.length ≠ 12) : pinDrop12 p = p := by
  unfold pinDrop12
  rw [if_neg (fun hc => h hc.1)]

theorem pinFixO0_decomp (a : Char) (mid : List Char) (z : Char)
    (h : 11 ≤ (a :: (mid ++ [z])).length) :
    pinFixO0 (a :: (mid ++ [z])) = a :: (mapO0 mid ++ [z]) := by
  unfold pinFixO0
  rw [if_pos h]
  have h2 : ((a :: (mid ++ [z])).drop 1).dropLast = mid := by
    simp [List.dropLast_concat]
  have h3 : (a :: (mid ++ [z])).getLastD ' ' = z := by
    rw [show a :: (mid ++ [z]) = (a :: mid) ++ [z] from by simp]
    exact List.getLastD_concat _ _ _
  rw [h2, h3]
  rfl

/-! ## Claim C6 -/

/-- C6: `parse_date` drops a trailing time component (split on whitespace,
first token), tries the fixed ordered format list with the first success
winning, and normalises to `YYYY-MM-DD`, with
`parse_date "2025-12-17 21:50:06" = parse_date "2025-12-17" = "2025-12-17"`
and unmatched strings yielding `null` — but the "never raises" part of the
claim fails: on a non-empty all-whitespace input such as `" "`,
`date_str.split()[0]` raises `IndexError: list index out of range` instead of
returning `null`, contradicting the function's own docstring
("ISO formatted date string or None if parsing fails"). -/
theorem c6_parse_date_eval :
    parse_date " " = Except.error "list index out of range"
    ∧ parse_date "2025-12-17 21:50:06" = Except.ok (some "2025-12-17")
    ∧ parse_date "2025-12-17" = Except.ok (some "2025-12-17")
    ∧ parse_date "2025/12/11" = Except.ok (some "2025-12-11")
    ∧ parse_date "11/12/2025" = Except.ok (some "2025-12-11")
    ∧ parse_date "11-12-2025" = Except.ok (some "2025-12-11")
    ∧ parse_date "1/2/34" = Except.ok (some "2034-02-01")
    ∧ parse_date "1-2-34" = Except.ok (some "2034-02-01")
    ∧ parse_date "not-a-date" = Except.ok none
    ∧ parse_date "29/02/2023" = Except.ok none
    ∧ parse_date "" = Except.ok none := by
  decide

/-! ## Claim C4 -/

/-- C4 counterexample: `"AO12345678B"` is 11 characters and alphanumeric, so
`validate_kra_pin` accepts it, yet `cleanup_kra_pin` rewrites its interior
letter `O` to the digit `0` and returns `"A012345678B"` instead of the input:
correction is not the identity on all valid identifiers. -/
theorem c4_counterexample :
    validate_kra_pin "AO12345678B" = true
    ∧ cleanup_kra_pin "AO12345678B" ≠ "AO12345678B"
    ∧ cleanup_kra_pin "AO12345678B" = "A012345678B" := by
  decide

/-- C4 (amended): identifier correction is the identity on valid 11-character
alphanumeric identifiers that contain no letter `O` in the nine interior
positions (the first and last characters may be anything alphanumeric,
including `O`). -/
theorem c4_cleanup_id_of_no_interior_O (s : String)
    (hv : validate_kra_pin s = true)
    (hO : 'O' ∉ (s.data.drop 1).dropLast) :
    cleanup_kra_pin s = s := by
  obtain ⟨l⟩ := s
  unfold validate_kra_pin at hv
  rw [apply_ite (fun b : Bool => b = true)] at hv
  split at hv
  · exact absurd hv (by simp)
  · rename_i hcond
    simp only [Bool.or_eq_true, decide_eq_true_eq, not_or] at hcond
    have hlen : l.length = 11 := by
      rcases hcond with ⟨-, h2⟩
      by_contra hne
      exact h2 (by simpa [String.length] using hne)
    have hne : l ≠ [] := by
      intro h; rw [h] at hlen; simp at hlen
    obtain ⟨a, t, rfl⟩ : ∃ a t, l = a :: t := by
      cases l with
      | nil => exact absurd rfl hne
      | cons a t => exact ⟨a, t, rfl⟩
    have htlen : t.length = 10 := by simpa using hlen
    have htne : t ≠ [] := by intro h; rw [h] at htlen; simp at htlen
    obtain ⟨mid, z, rfl⟩ : ∃ mid z, t = mid ++ [z] :=
      ⟨t.dropLast, t.getLast htne, (List.dropLast_append_getLast htne).symm⟩
    have hmid : 'O' ∉ mid := by
      simpa [List.dropLast_concat] using hO
    have hmidlen : mid.length = 9 := by simpa using htlen
    have hL : (a :: (mid ++ [z])).length = 11 := by simp [hmidlen]
    unfold cleanup_kra_pin
    rw [if_neg (by simp [pyStrIsEmpty])]
    rw [pinFixPO_of_len_ne12 (by rw [hL]; norm_num)]
    rw [pinFixO0_decomp a mid z (by rw [hL])]
    have hmap : mapO0 mid = mid := by
      unfold mapO0
      have hcongr : ∀ c ∈ mid, (if c = 'O' then '0' else c) = id c := by
        intro c hc
        have : c ≠ 'O' := fun he => hmid (he ▸ hc)
        simp [this]
      rw [List.map_congr_left hcongr, List.map_id]
    rw [hmap]
    rw [pinDrop12_of_len_ne12 (by rw [hL]; norm_num)]

/-- Witness for the amended C4 theorem at the concrete valid identifier
`"A123456789B"`. -/
theorem c4_witness : cleanup_kra_pin "A123456789B" = "A123456789B" :=
  c4_cleanup_id_of_no_interior_O "A123456789B" (by decide) (by decide)

/-! ## Claim C10 -/

/-- C10: on a 12-character pin whose first two characters are letters with the
second not `O`, `cleanup_kra_pin` keeps the first character, drops the second
(whether or not it duplicates the first), maps `O` to `0` in the nine interior
positions, and keeps the final character unchanged. -/
theorem c10_twelve_char_pin_cleanup (a b : Char) (mid : List Char) (z : Char)
    (hmid : mid.length = 9) (ha : pyIsAlpha a = true) (hb : pyIsAlpha b = true)
    (hbO : b ≠ 'O') :
    cleanup_kra_pin (String.mk (a :: b :: (mid ++ [z])))
      = String.mk (a :: (mapO0 mid ++ [z])) := by
  have hL : (a :: b :: (mid ++ [z])).length = 12 := by simp [hmid]
  unfold cleanup_kra_pin
  rw [if_neg (by simp [pyStrIsEmpty])]
  have hPO : pinFixPO (a :: b :: (mid ++ [z])) = a :: b :: (mid ++ [z]) := by
    unfold pinFixPO
    rw [if_neg, if_neg]
    · intro hcon
      have h2 : a :: b :: ([] : List Char) = ['P', 'O'] := hcon.2
      simp only [List.cons.injEq, and_true] at h2
      exact hbO h2.2
    · intro hcon
      exact hbO hcon.2.2
  rw [hPO]
  rw [show a :: b :: (mid ++ [z]) = a :: ((b :: mid) ++ [z]) from by simp]
  rw [pinFixO0_decomp a (b :: mid) z (by simp [hmid])]
  have hbmap : mapO0 (b :: mid) = b :: mapO0 mid := by
    simp [mapO0, hbO]
  rw [hbmap]
  unfold pinDrop12
  rw [if_pos]
  · rfl
  · refine ⟨by simp [hmid, mapO0], by simp, ?_⟩
    show (pyIsAlpha a && (pyIsAlpha b && true)) = true
    rw [ha, hb]
    rfl

/-- Witness for the C10 theorem at the concrete 12-character pin
`"PA12O45678NZ"`, cleaned to `"P12045678NZ"`. -/
theorem c10_witness :
    cleanup_kra_pin (String.mk ['P', 'A', '1', '2', 'O', '4', '5', '6', '7', '8', 'N', 'Z'])
      = String.mk ['P', '1', '2', '0', '4', '5', '6', '7', '8', 'N', 'Z'] := by
  have h := c10_twelve_char_pin_cleanup 'P' 'A' ['1', '2', 'O', '4', '5', '6', '7', '8', 'N'] 'Z'
    (by decide) (by decide) (by decide) (by decide)
  exact Eq.trans h (by decide)

/-! ## Claim C5 -/

theorem decValue_negSucc_eq (digits : Nat) (k : Nat) :
    decValue 1 digits (Int.negSucc k) = (digits : ℚ) / 10 ^ (k + 1) := by
  show mkRat (1 * (digits : Int)) (10 ^ (k + 1)) = (digits : ℚ) / 10 ^ (k + 1)
  rw [Rat.mkRat_eq_div]
  push_cast
  ring

theorem decValue_zero_eq (digits : Nat) : decValue 1 digits 0 = (digits : ℚ) := by
  show mkRat (1 * (digits : Int) * ((10 ^ 0 : Nat) : Int)) 1 = (digits : ℚ)
  rw [Rat.mkRat_eq_div]
  push_cast
  ring

theorem parseDecimalL_digits (I F : List Char) (hI : I ≠ [])
    (hId : ∀ c ∈ I, pyIsDigit c = true) (hFd : ∀ c ∈ F, pyIsDigit c = true) :
    parseDecimalL (I ++ '.' :: F)
      = some ((natOfDigits I : ℚ) + (natOfDigits F : ℚ) / 10 ^ F.length) := by
  obtain ⟨c0, I0, rfl⟩ : ∃ c0 I0, I = c0 :: I0 := by
    cases I with
    | nil => exact absurd rfl hI
    | cons a t => exact ⟨a, t, rfl⟩
  have hc0 : pyIsDigit c0 = true := hId c0 (List.mem_cons_self _ _)
  have hstrip : pyStripL ((c0 :: I0) ++ '.' :: F) = (c0 :: I0) ++ '.' :: F := by
    apply pyStripL_of_no_space
    intro c hc
    rcases List.mem_append.mp hc with hcI | hcF
    · exact pyIsDigit_not_space (hId c hcI)
    · rcases List.mem_cons.mp hcF with rfl | hcF2
      · decide
      · exact pyIsDigit_not_space (hFd c hcF2)
  have hsign : parseSign ((c0 :: I0) ++ '.' :: F) = (1, (c0 :: I0) ++ '.' :: F) := by
    have h1 : c0 ≠ '+' := pyIsDigit_ne hc0 (by decide)
    have h2 : c0 ≠ '-' := pyIsDigit_ne hc0 (by decide)
    simp [parseSign, h1, h2]
  have htw := takeWhile_append_cons (c0 :: I0) hId '.' (by decide) F
  have hFtw : F.takeWhile pyIsDigit = F := List.takeWhile_eq_self_iff.mpr hFd
  have hFdw : F.dropWhile pyIsDigit = [] := List.dropWhile_eq_nil_iff.mpr hFd
  simp only [parseDecimalL, hstrip, hsign, htw.1, htw.2, hFtw, hFdw]
  rw [if_neg (fun hcon => List.noConfusion hcon.1)]
  show some (decValue 1 (natOfDigits ((c0 :: I0) ++ F)) ((0 : Int) - F.length)) = _
  rw [natOfDigits_append]
  cases hF : F.length with
  | zero =>
    have hFnil : F = [] := List.length_eq_zero.mp hF
    subst hFnil
    simp only [List.length_nil, Nat.cast_zero, sub_zero, pow_zero, mul_one]
    rw [show natOfDigits ([] : List Char) = 0 from rfl]
    rw [decValue_zero_eq]
    push_cast
    norm_num
  | succ k =>
    have he : (0 : Int) - ((k + 1 : Nat) : Int) = Int.negSucc k := by
      rw [Int.negSucc_eq]
      push_cast
      ring
    rw [he, decValue_negSucc_eq]
    simp only [Option.some.injEq]
    push_cast
    rw [add_div, mul_div_cancel_right₀]
    positivity

/-- C5: `parse_amount` strips commas and spaces and returns the exact decimal
value: concretely `parse_amount "1,234.56"` is exactly `123456/100 = 1234.56`
(no floating point), and in general a digit string `I`, a point, and a digit
string `F` parse to exactly `I + F / 10 ^ |F|`; empty and non-numeric strings
yield `null` (the function catches `InvalidOperation` and is total, so it
never raises). -/
theorem c5_parse_amount_exact :
    parse_amount "1,234.56" = some (mkRat 123456 100)
    ∧ mkRat 123456 100 = (123456 : ℚ) / 100
    ∧ (123456 : ℚ) / 100 = (1234.56 : ℚ)
    ∧ parse_amount "" = none
    ∧ parse_amount "abc" = none
    ∧ parse_amount "12..3" = none
    ∧ ∀ (I F : List Char), I ≠ [] → (∀ c ∈ I, pyIsDigit c = true) →
        (∀ c ∈ F, pyIsDigit c = true) →
        parse_amount (String.mk (I ++ '.' :: F))
          = some ((natOfDigits I : ℚ) + (natOfDigits F : ℚ) / 10 ^ F.length) := by
  refine ⟨by decide, by rw [Rat.mkRat_eq_div]; norm_num, by norm_num, by decide, by decide,
    by decide, ?_⟩
  intro I F hI hId hFd
  obtain ⟨c0, I0, rfl⟩ : ∃ c0 I0, I = c0 :: I0 := by
    cases I with
    | nil => exact absurd rfl hI
    | cons a t => exact ⟨a, t, rfl⟩
  have hfil : ((c0 :: I0) ++ '.' :: F).filter (fun c => !(c == ',' || c == ' '))
      = (c0 :: I0) ++ '.' :: F := by
    apply List.filter_eq_self.mpr
    intro c hc
    rcases List.mem_append.mp hc with hcI | hcF
    · exact pyIsDigit_keep (hId c hcI)
    · rcases List.mem_cons.mp hcF with rfl | hcF2
      · decide
      · exact pyIsDigit_keep (hFd c hcF2)
  unfold parse_amount
  rw [if_neg (by simp [pyStrIsEmpty])]
  show parseDecimalL (((c0 :: I0) ++ '.' :: F).filter (fun c => !(c == ',' || c == ' '))) = _
  rw [hfil]
  exact parseDecimalL_digits (c0 :: I0) F hI hId hFd

/-- Witness for the C5 theorem: instantiating the exactness statement at the
digit strings `42` and `5` gives `parse_amount "42.5"` exactly `42 + 5/10`. -/
theorem c5_witness :
    parse_amount (String.mk ['4', '2', '.', '5'])
      = some ((natOfDigits ['4', '2'] : ℚ)
        + (natOfDigits ['5'] : ℚ) / 10 ^ (['5'] : List Char).length) :=
  c5_parse_amount_exact.2.2.2.2.2.2 ['4', '2'] ['5'] (by decide) (by decide) (by decide)

/-! ## Claim C7 -/

theorem extractFieldGo_none (rs : String → String → Option ReMatch) (text : String) :
    ∀ ps : List String, (∀ p ∈ ps, rs p text = none) →
      extractFieldGo rs text ps = Except.ok none := by
  intro ps h
  induction ps with
  | nil => rfl
  | cons p t ih =>
    have hp := h p (List.mem_cons_self p t)
    unfold extractFieldGo
    rw [hp]
    exact ih (fun q hq => h q (List.mem_cons_of_mem p hq))

theorem extractFieldGo_first (rs : String → String → Option ReMatch) (text : String) :
    ∀ (ps1 : List String) (p : String) (ps2 : List String) (m : ReMatch),
      (∀ q ∈ ps1, rs q text = none) → rs p text = some m →
      extractFieldGo rs text (ps1 ++ p :: ps2) = Except.map some (selectGroup m) := by
  intro ps1
  induction ps1 with
  | nil =>
    intro p ps2 m _ hp
    show extractFieldGo rs text (p :: ps2) = _
    unfold extractFieldGo
    rw [hp]
    cases hsel : selectGroup m with
    | ok v => simp [hsel, Except.map]
    | error e => simp [hsel, Except.map]
  | cons a t ih =>
    intro p ps2 m h1 hp
    have ha := h1 a (List.mem_cons_self a t)
    show extractFieldGo rs text (a :: (t ++ p :: ps2)) = _
    unfold extractFieldGo
    rw [ha]
    exact ih p ps2 m (fun q hq => h1 q (List.mem_cons_of_mem a hq)) hp

/-- C7: `extract_field` tries the field's ordered pattern list in order and
returns the (group-selected, stripped) captured value of the first pattern the
regex oracle matches; when no configured pattern matches — in particular for a
field name with no entry in `FIELD_PATTERNS` — it returns `null` without
raising (`Except.ok none`). -/
theorem c7_extract_field_first_match (rs : String → String → Option ReMatch)
    (text field : String) :
    (FIELD_PATTERNS.lookup field = none → extract_field rs text field = Except.ok none)
    ∧ ((∀ p ∈ fieldPatterns field, rs p text = none) →
        extract_field rs text field = Except.ok none)
    ∧ (∀ (ps1 : List String) (p : String) (ps2 : List String) (m : ReMatch),
        fieldPatterns field = ps1 ++ p :: ps2 →
        (∀ q ∈ ps1, rs q text = none) → rs p text = some m →
        extract_field rs text field = Except.map some (selectGroup m)) := by
  refine ⟨?_, ?_, ?_⟩
  · intro h
    unfold extract_field fieldPatterns
    rw [h]
    rfl
  · intro h
    exact extractFieldGo_none rs text _ h
  · intro ps1 p ps2 m hsplit h1 hp
    unfold extract_field
    rw [hsplit]
    exact extractFieldGo_first rs text ps1 p ps2 m h1 hp

/-- An oracle recording the behaviour of Python `re.search` on the text
`"SCU ID: X9"`: the first invoice-number pattern matches with group 1 `"X9"`
(and `lastindex = 1`), and no other pattern matches. -/
def oracleSCU (pat text : String) : Option ReMatch :=
  if pat = invNumPat1 ∧ text = "SCU ID: X9" then some ⟨[some "X9"], some 1⟩ else none

/-- Witness for C7: on `"SCU ID: X9"` the first pattern wins for
`invoice_number`, and an unknown field name yields `null`. -/
theorem c7_witness :
    extract_field oracleSCU "SCU ID: X9" "invoice_number"
      = Except.map some (selectGroup ⟨[some "X9"], some 1⟩)
    ∧ extract_field oracleSCU "SCU ID: X9" "unknown_field" = Except.ok none := by
  constructor
  · exact (c7_extract_field_first_match oracleSCU "SCU ID: X9" "invoice_number").2.2
      [] invNumPat1 [invNumPat2, invNumPat3, invNumPat4] ⟨[some "X9"], some 1⟩
      (by decide) (by simp) (by decide)
  · exact (c7_extract_field_first_match oracleSCU "SCU ID: X9" "unknown_field").1 (by decide)

/-! ## Claim C8 -/

theorem cc_lookup_num (r : ParseResult) :
    (calculate_confidence r).lookup "invoice_number" = some (scoreInvNum r.invoice_number) := rfl

theorem cc_lookup_amount (r : ParseResult) :
    (calculate_confidence r).lookup "invoice_amount"
      = some (if r.invoice_amount.isSome then (19 : ℚ) / 20 else 0) := rfl

theorem cc_lookup_idate (r : ParseResult) :
    (calculate_confidence r).lookup "invoice_date"
      = some (if pyTruthy r.invoice_date then (9 : ℚ) / 10 else 0) := rfl

theorem cc_lookup_ddate (r : ParseResult) :
    (calculate_confidence r).lookup "due_date"
      = some (if pyTruthy r.due_date then (9 : ℚ) / 10 else 0) := rfl

theorem cc_lookup_spin (r : ParseResult) :
    (calculate_confidence r).lookup "supplier_kra_pin" = some (scorePin r.supplier_kra_pin) := rfl

theorem cc_lookup_bpin (r : ParseResult) :
    (calculate_confidence r).lookup "buyer_kra_pin" = some (scorePin r.buyer_kra_pin) := rfl

theorem scoreInvNum_of_not_truthy {o : Option String} (h : pyTruthy o = false) :
    scoreInvNum o = 0 := by
  cases o with
  | none => rfl
  | some s =>
    simp only [pyTruthy, Bool.not_eq_false'] at h
    simp [scoreInvNum, h]

theorem scoreInvNum_high {s : String} (hne : pyStrIsEmpty s = false) (h5 : 5 ≤ s.length)
    (h30 : s.length ≤ 30) (hany : s.data.any pyIsAlnum = true) :
    scoreInvNum (some s) = 9 / 10 := by
  simp [scoreInvNum, hne, h5, h30, hany]

theorem scoreInvNum_low {s : String} (hne : pyStrIsEmpty s = false)
    (hcon : ¬(5 ≤ s.length ∧ s.length ≤ 30 ∧ s.data.any pyIsAlnum = true)) :
    scoreInvNum (some s) = 6 / 10 := by
  simp only [scoreInvNum, hne, Bool.not_false, if_true]
  rw [if_neg hcon]

theorem scorePin_of_not_truthy {o : Option String} (h : pyTruthy o = false) :
    scorePin o = 0 := by
  cases o with
  | none => rfl
  | some p =>
    simp only [pyTruthy, Bool.not_eq_false'] at h
    simp [scorePin, h]

theorem scorePin_valid {p : String} (hne : pyStrIsEmpty p = false)
    (hv : validate_kra_pin p = true) : scorePin (some p) = 19 / 20 := by
  simp [scorePin, hne, hv]

theorem scorePin_invalid {p : String} (hne : pyStrIsEmpty p = false)
    (hv : validate_kra_pin p = false) : scorePin (some p) = 1 / 2 := by
  simp [scorePin, hne, hv]

theorem scoreInvNum_bounds (o : Option String) : 0 ≤ scoreInvNum o ∧ scoreInvNum o ≤ 1 := by
  cases o with
  | none => norm_num [scoreInvNum]
  | some s =>
    rw [show scoreInvNum (some s)
        = (if (!pyStrIsEmpty s) = true then
            (if 5 ≤ s.length ∧ s.length ≤ 30 ∧ s.data.any pyIsAlnum = true then (9 : ℚ) / 10
             else 6 / 10)
           else 0) from rfl]
    split_ifs <;> norm_num

theorem scorePin_bounds (o : Option String) : 0 ≤ scorePin o ∧ scorePin o ≤ 1 := by
  cases o with
  | none => norm_num [scorePin]
  | some p =>
    rw [show scorePin (some p)
        = (if (!pyStrIsEmpty p) = true then
            (if validate_kra_pin p = true then (19 : ℚ) / 20 else 1 / 2)
           else 0) from rfl]
    split_ifs <;> norm_num

/-- C8 counterexample: the score dict of `calculate_confidence` is NOT a
mapping over the same field names as the specification's `ExtractedFields` —
`buyer_details` and `seller_details` are never scored — and a present-but-empty
`invoice_number` (`""`, non-null) scores `0.0`, not the `0.6` the table
assigns to "present but outside the shape". -/
theorem c8_counterexample :
    ((calculate_confidence initResult).map Prod.fst ≠ specExtractedFieldNames)
    ∧ ("buyer_details" ∈ specExtractedFieldNames)
    ∧ ("buyer_details" ∉ (calculate_confidence initResult).map Prod.fst)
    ∧ (calculate_confidence { initResult with invoice_number := some "" }).lookup
        "invoice_number" = some 0 := by
  decide

/-- C8 (amended): `calculate_confidence` returns a score dict over exactly the
six scalar extraction field names (`buyer_details` / `seller_details` are not
scored), fully populated, each value in `[0, 1]`, following the heuristic
table with "present" meaning truthy (non-null and non-empty): invoice_number
0.9 in shape / 0.6 otherwise, invoice_amount 0.95, dates 0.9, KRA PINs 0.95
valid / 0.5 invalid, and 0.0 for absent fields. -/
theorem c8_confidence_table (r : ParseResult) :
    ((calculate_confidence r).map Prod.fst = confidenceFieldNames)
    ∧ (∀ q ∈ calculate_confidence r, 0 ≤ q.2 ∧ q.2 ≤ 1)
    ∧ (pyTruthy r.invoice_number = false →
        (calculate_confidence r).lookup "invoice_number" = some 0)
    ∧ (∀ s, r.invoice_number = some s → pyStrIsEmpty s = false →
        5 ≤ s.length → s.length ≤ 30 → s.data.any pyIsAlnum = true →
        (calculate_confidence r).lookup "invoice_number" = some (9 / 10))
    ∧ (∀ s, r.invoice_number = some s → pyStrIsEmpty s = false →
        ¬(5 ≤ s.length ∧ s.length ≤ 30 ∧ s.data.any pyIsAlnum = true) →
        (calculate_confidence r).lookup "invoice_number" = some (6 / 10))
    ∧ (r.invoice_amount.isSome = true →
        (calculate_confidence r).lookup "invoice_amount" = some (19 / 20))
    ∧ (r.invoice_amount = none →
        (calculate_confidence r).lookup "invoice_amount" = some 0)
    ∧ (pyTruthy r.invoice_date = true →
        (calculate_confidence r).lookup "invoice_date" = some (9 / 10))
    ∧ (pyTruthy r.invoice_date = false →
        (calculate_confidence r).lookup "invoice_date" = some 0)
    ∧ (pyTruthy r.due_date = true →
        (calculate_confidence r).lookup "due_date" = some (9 / 10))
    ∧ (pyTruthy r.due_date = false →
        (calculate_confidence r).lookup "due_date" = some 0)
    ∧ (∀ p, r.supplier_kra_pin = some p → pyStrIsEmpty p = false →
        validate_kra_pin p = true →
        (calculate_confidence r).lookup "supplier_kra_pin" = some (19 / 20))
    ∧ (∀ p, r.supplier_kra_pin = some p → pyStrIsEmpty p = false →
        validate_kra_pin p = false →
        (calculate_confidence r).lookup "supplier_kra_pin" = some (1 / 2))
    ∧ (pyTruthy r.supplier_kra_pin = false →
        (calculate_confidence r).lookup "supplier_kra_pin" = some 0)
    ∧ (∀ p, r.buyer_kra_pin = some p → pyStrIsEmpty p = false →
        validate_kra_pin p = true →
        (calculate_confidence r).lookup "buyer_kra_pin" = some (19 / 20))
    ∧ (∀ p, r.buyer_kra_pin = some p → pyStrIsEmpty p = false →
        validate_kra_pin p = false →
        (calculate_confidence r).lookup "buyer_kra_pin" = some (1 / 2))
    ∧ (pyTruthy r.buyer_kra_pin = false →
        (calculate_confidence r).lookup "buyer_kra_pin" = some 0) := by
  refine ⟨rfl, ?_, ?_, ?_, ?_, ?_, ?_, ?_, ?_, ?_, ?_, ?_, ?_, ?_, ?_, ?_, ?_⟩
  · intro q hq
    simp only [calculate_confidence, List.mem_cons, List.not_mem_nil, or_false] at hq
    rcases hq with h | h | h | h | h | h <;> subst h
    · exact scoreInvNum_bounds r.invoice_number
    · split_ifs <;> norm_num
    · split_ifs <;> norm_num
    · split_ifs <;> norm_num
    · exact scorePin_bounds r.supplier_kra_pin
    · exact scorePin_bounds r.buyer_kra_pin
  · intro h
    rw [cc_lookup_num, scoreInvNum_of_not_truthy h]
  · intro s hs hne h5 h30 hany
    rw [cc_lookup_num, hs, scoreInvNum_high hne h5 h30 hany]
  · intro s hs hne hcon
    rw [cc_lookup_num, hs, scoreInvNum_low hne hcon]
  · intro h
    rw [cc_lookup_amount, if_pos h]
  · intro h
    rw [cc_lookup_amount, if_neg]
    rw [h]
    simp
  · intro h
    rw [cc_lookup_idate, if_pos h]
  · intro h
    rw [cc_lookup_idate, if_neg]
    rw [h]
    simp
  · intro h
    rw [cc_lookup_ddate, if_pos h]
  · intro h
    rw [cc_lookup_ddate, if_neg]
    rw [h]
    simp
  · intro p hp hne hv
    rw [cc_lookup_spin, hp, scorePin_valid hne hv]
  · intro p hp hne hv
    rw [cc_lookup_spin, hp, scorePin_invalid hne hv]
  · intro h
    rw [cc_lookup_spin, scorePin_of_not_truthy h]
  · intro p hp hne hv
    rw [cc_lookup_bpin, hp, scorePin_valid hne hv]
  · intro p hp hne hv
    rw [cc_lookup_bpin, hp, scorePin_invalid hne hv]
  · intro h
    rw [cc_lookup_bpin, scorePin_of_not_truthy h]

/-- Witness for the amended C8 theorem at a concrete extraction record: a
well-shaped invoice number scores 0.9 and a present-but-invalid pin scores
0.5. -/
theorem c8_witness :
    (calculate_confidence
        { initResult with invoice_number := some "INV001", buyer_kra_pin := some "XY" }).lookup
      "invoice_number" = some (9 / 10)
    ∧ (calculate_confidence
        { initResult with invoice_number := some "INV001", buyer_kra_pin := some "XY" }).lookup
      "buyer_kra_pin" = some (1 / 2) := by
  constructor
  · exact (c8_confidence_table
      { initResult with invoice_number := some "INV001", buyer_kra_pin := some "XY" }).2.2.2.1
      "INV001" rfl (by decide) (by decide) (by decide) (by decide)
  · exact (c8_confidence_table
      { initResult with invoice_number := some "INV001", buyer_kra_pin := some "XY" }
      ).2.2.2.2.2.2.2.2.2.2.2.2.2.2.2.1
      "XY" rfl (by decide) (by decide)

/-! ## Claim C9 -/

theorem engineConfidence_eq (confs : List Int) :
    engineConfidence confs
      = (if (usableConfs confs).isEmpty then 0
         else ((usableConfs confs).sum : ℚ) / (usableConfs confs).length) / 100 := rfl

/-- C9: the page confidence returned by the recognition wrapper equals the
mean of the backend's per-token confidences with the `-1` sentinel excluded,
normalised by 100; when no token has a usable confidence it is 0; and for
token confidences in the backend's range `[-1, 100]` the result lies in
`[0, 1]`. -/
theorem c9_engine_confidence_mean (text : String) (confs : List Int) :
    ((ocr_engine_extract text confs).confidence = engineConfidence confs)
    ∧ (usableConfs confs = [] → engineConfidence confs = 0)
    ∧ (usableConfs confs ≠ [] →
        engineConfidence confs
          = ((usableConfs confs).sum : ℚ) / (usableConfs confs).length / 100)
    ∧ ((∀ c ∈ confs, -1 ≤ c ∧ c ≤ 100) →
        0 ≤ (ocr_engine_extract text confs).confidence
        ∧ (ocr_engine_extract text confs).confidence ≤ 1) := by
  refine ⟨rfl, ?_, ?_, ?_⟩
  · intro h
    rw [engineConfidence_eq, h]
    simp
  · intro h
    rw [engineConfidence_eq, if_neg]
    simpa [List.isEmpty_iff] using h
  · intro h
    have hmem : ∀ c ∈ usableConfs confs, 0 ≤ c ∧ c ≤ 100 := by
      intro c hc
      have hin := List.mem_filter.mp hc
      have hb := h c hin.1
      have hne : c ≠ -1 := by simpa using hin.2
      omega
    show 0 ≤ engineConfidence confs ∧ engineConfidence confs ≤ 1
    rw [engineConfidence_eq]
    by_cases he : (usableConfs confs).isEmpty
    · rw [if_pos he]
      norm_num
    · rw [if_neg he]
      have hnil : usableConfs confs ≠ [] := by simpa [List.isEmpty_iff] using he
      have hlen : 0 < ((usableConfs confs).length : ℚ) := by
        exact_mod_cast List.length_pos.mpr hnil
      have hsum0 : (0 : Int) ≤ (usableConfs confs).sum :=
        List.sum_nonneg (fun x hx => (hmem x hx).1)
      have hsumU : (usableConfs confs).sum ≤ (usableConfs confs).length • (100 : Int) :=
        List.sum_le_card_nsmul _ 100 (fun x hx => (hmem x hx).2)
      have hsumU2 : (usableConfs confs).sum ≤ ((usableConfs confs).length : Int) * 100 := by
        rwa [nsmul_eq_mul] at hsumU
      have hsumQ : ((usableConfs confs).sum : ℚ) ≤ ((usableConfs confs).length : ℚ) * 100 := by
        exact_mod_cast hsumU2
      constructor
      · apply div_nonneg
        · apply div_nonneg
          · exact_mod_cast hsum0
          · exact le_of_lt hlen
        · norm_num
      · rw [div_le_one (by norm_num : (0 : ℚ) < 100), div_le_iff₀ hlen]
        linarith

/-- Witness for C9: the token confidences `[90, -1, 50]` produce exactly the
mean of the usable values divided by 100. -/
theorem c9_witness :
    engineConfidence [90, -1, 50]
      = ((usableConfs [90, -1, 50]).sum : ℚ) / (usableConfs [90, -1, 50]).length / 100 :=
  (c9_engine_confidence_mean "" [90, -1, 50]).2.2.1 (by decide)

/-! ## Claim C3 -/

theorem pageTexts_eq (ps : List PageOCR) :
    pageTexts ps = (succeededPages ps).map PageOCR.text := by
  induction ps with
  | nil => rfl
  | cons p t ih =>
    cases hp : p.error with
    | some e =>
      unfold pageTexts
      rw [hp]
      rw [ih]
      simp [succeededPages, List.filter_cons, hp]
    | none =>
      unfold pageTexts
      rw [hp]
      rw [ih]
      simp [succeededPages, List.filter_cons, hp]

theorem pageConfs_eq (ps : List PageOCR) :
    pageConfs ps = (succeededPages ps).map PageOCR.confidence := by
  induction ps with
  | nil => rfl
  | cons p t ih =>
    cases hp : p.error with
    | some e =>
      unfold pageConfs
      rw [hp]
      rw [ih]
      simp [succeededPages, List.filter_cons, hp]
    | none =>
      unfold pageConfs
      rw [hp]
      rw [ih]
      simp [succeededPages, List.filter_cons, hp]

/-- C3: given the per-page recognition results of a validated file,
`extract_text` succeeds exactly when at least one page produced a recognition
result (pages whose recognition reported an error are skipped from both the
combined text and the mean, not scored as 0): on success the text is the
succeeded pages' texts joined by a blank line in page order and the confidence
is the arithmetic mean of the succeeded pages' confidences; with zero such
pages it fails with a `"No text could be extracted"` error appended. -/
theorem c3_extract_text_combines (pages : List PageOCR) :
    (succeededPages pages ≠ [] →
      (ocr_extract_text pages).success = true
      ∧ (ocr_extract_text pages).text
          = String.intercalate "\n\n" ((succeededPages pages).map PageOCR.text)
      ∧ (ocr_extract_text pages).confidence
          = ((succeededPages pages).map PageOCR.confidence).sum
            / ((succeededPages pages).length))
    ∧ (succeededPages pages = [] →
      (ocr_extract_text pages).success = false
      ∧ "No text could be extracted" ∈ (ocr_extract_text pages).errors
      ∧ (ocr_extract_text pages).text = ""
      ∧ (ocr_extract_text pages).confidence = 0) := by
  constructor
  · intro hne
    have hne2 : (pageTexts pages).isEmpty = false := by
      rw [pageTexts_eq, Bool.eq_false_iff]
      intro hemp
      exact hne (List.map_eq_nil_iff.mp (List.isEmpty_iff.mp hemp))
    unfold ocr_extract_text
    rw [if_neg (by simp [hne2])]
    refine ⟨rfl, ?_, ?_⟩
    · rw [pageTexts_eq]
    · rw [pageConfs_eq]
      simp [List.length_map]
  · intro hnil
    have ht : pageTexts pages = [] := by rw [pageTexts_eq, hnil]; rfl
    unfold ocr_extract_text
    rw [if_pos (by simp [ht])]
    refine ⟨rfl, ?_, rfl, rfl⟩
    simp

/-- The per-page results of a three-page run: two pages succeed, the middle
page's recognition raised. -/
def demoPages : List PageOCR :=
  [{ text := "hello", confidence := 1 / 2, error := none },
   { text := "", confidence := 0, error := some "boom" },
   { text := "world", confidence := 1, error := none }]

/-- Witness for C3 at a concrete three-page run with one failed page. -/
theorem c3_witness :
    (ocr_extract_text demoPages).success = true
    ∧ (ocr_extract_text demoPages).text
        = String.intercalate "\n\n" ((succeededPages demoPages).map PageOCR.text)
    ∧ (ocr_extract_text demoPages).confidence
        = ((succeededPages demoPages).map PageOCR.confidence).sum
          / ((succeededPages demoPages).length) :=
  (c3_extract_text_combines demoPages).1 (by decide)

/-! ## Claim C2 -/

theorem pstep_err {α : Type} (r : ParseResult) (x : Except String α) (k : α → ParseResult)
    (hk : ∀ a, (k a).extraction_success = false → (k a).extraction_errors ≠ []) :
    (pstep r x k).extraction_success = false → (pstep r x k).extraction_errors ≠ [] := by
  cases x with
  | error e => intro _; simp [pstep]
  | ok a => exact hk a

theorem stage8_err (r : ParseResult) :
    (parseStage8 r).extraction_success = false → (parseStage8 r).extraction_errors ≠ [] := by
  simp only [parseStage8]
  split_ifs with h
  · intro hs
    exact absurd hs (by simp [h])
  all_goals intro _
  all_goals simp

theorem stage7_err (rs : String → String → Option ReMatch) (s : String) (r : ParseResult) :
    (parseStage7 rs s r).extraction_success = false →
      (parseStage7 rs s r).extraction_errors ≠ [] := by
  unfold parseStage7
  exact pstep_err _ _ _ (fun nm => stage8_err _)

theorem stage6_err (rs : String → String → Option ReMatch) (s : String) (r : ParseResult) :
    (parseStage6 rs s r).extraction_success = false →
      (parseStage6 rs s r).extraction_errors ≠ [] := by
  unfold parseStage6
  exact pstep_err _ _ _ (fun nm => stage7_err _ _ _)

theorem stage5_err (rs : String → String → Option ReMatch) (s : String) (r : ParseResult) :
    (parseStage5 rs s r).extraction_success = false →
      (parseStage5 rs s r).extraction_errors ≠ [] := by
  unfold parseStage5
  exact pstep_err _ _ _ (fun pO => stage6_err _ _ _)

theorem stage4_err (rs : String → String → Option ReMatch) (s : String) (r : ParseResult) :
    (parseStage4 rs s r).extraction_success = false →
      (parseStage4 rs s r).extraction_errors ≠ [] := by
  unfold parseStage4
  exact pstep_err _ _ _ (fun pO => stage5_err _ _ _)

theorem stage3_err (rs : String → String → Option ReMatch) (s : String) (r : ParseResult) :
    (parseStage3 rs s r).extraction_success = false →
      (parseStage3 rs s r).extraction_errors ≠ [] := by
  unfold parseStage3
  apply pstep_err
  intro dO
  cases dO with
  | none => exact stage4_err _ _ _
  | some d =>
    by_cases hd : (!pyStrIsEmpty d) = true
    · simp only [hd, if_true]
      exact pstep_err _ _ _ (fun dv => stage4_err _ _ _)
    · simp only [hd, if_false]
      exact stage4_err _ _ _

theorem stage2_err (rs : String → String → Option ReMatch) (s : String) (r : ParseResult) :
    (parseStage2 rs s r).extraction_success = false →
      (parseStage2 rs s r).extraction_errors ≠ [] := by
  unfold parseStage2
  apply pstep_err
  intro dO
  cases dO with
  | none => exact stage3_err _ _ _
  | some d =>
    by_cases hd : (!pyStrIsEmpty d) = true
    · simp only [hd, if_true]
      exact pstep_err _ _ _ (fun dv => stage3_err _ _ _)
    · simp only [hd, if_false]
      exact stage3_err _ _ _

theorem stage1_err (rs : String → String → Option ReMatch) (s : String) (r : ParseResult) :
    (parseStage1 rs s r).extraction_success = false →
      (parseStage1 rs s r).extraction_errors ≠ [] := by
  unfold parseStage1
  exact pstep_err _ _ _ (fun aO => stage2_err _ _ _)

theorem stage0_err (rs : String → String → Option ReMatch) (s : String) :
    (parseStage0 rs s).extraction_success = false →
      (parseStage0 rs s).extraction_errors ≠ [] := by
  unfold parseStage0
  exact pstep_err _ _ _ (fun inv => stage1_err _ _ _)

/-- C2: `parse_invoice` returns a result for every input and never raises (it
is a total function, with every exception path of the source modelled as a
caught `Except.error` that appends an error and returns the partial result):
`None` input and input whose trimmed length is below 10 short-circuit to
exactly the fresh result carrying the single error
`"OCR text is empty or too short"` — every extraction field still `None`, so
no pattern matching was invoked — and on every input whatsoever, whenever
`extraction_success` is false the error list is non-empty. -/
theorem c2_total_short_circuit (rs : String → String → Option ReMatch) :
    (parse_invoice rs none = shortResult)
    ∧ (∀ s : String, pyStrIsEmpty s = true ∨ (pyStripL s.data).length < 10 →
        parse_invoice rs (some s) = shortResult)
    ∧ (∀ o : Option String, (parse_invoice rs o).extraction_success = false →
        (parse_invoice rs o).extraction_errors ≠ []) := by
  refine ⟨rfl, ?_, ?_⟩
  · intro s h
    have hc : (pyStrIsEmpty s || decide ((pyStripL s.data).length < 10)) = true := by
      rcases h with h | h
      · simp [h]
      · simp [h]
    show (if (pyStrIsEmpty s || decide ((pyStripL s.data).length < 10)) = true
          then shortResult else parseStage0 rs s) = shortResult
    rw [if_pos hc]
  · intro o
    cases o with
    | none =>
      intro _
      show shortResult.extraction_errors ≠ []
      simp [shortResult, initResult]
    | some s =>
      show ((if (pyStrIsEmpty s || decide ((pyStripL s.data).length < 10)) = true
            then shortResult else parseStage0 rs s)).extraction_success = false →
          ((if (pyStrIsEmpty s || decide ((pyStripL s.data).length < 10)) = true
            then shortResult else parseStage0 rs s)).extraction_errors ≠ []
      split_ifs with h
      · intro _
        simp [shortResult, initResult]
      · exact stage0_err rs s

/-- Witness for C2: a short input short-circuits, and a long input with no
pattern matches still returns (with errors recorded) rather than raising. -/
theorem c2_witness :
    parse_invoice (fun _ _ => none) (some "tiny") = shortResult
    ∧ (parse_invoice (fun _ _ => none)
        (some "this text is long enough")).extraction_errors ≠ [] := by
  constructor
  · exact (c2_total_short_circuit (fun _ _ => none)).2.1 "tiny" (Or.inr (by decide))
  · exact (c2_total_short_circuit (fun _ _ => none)).2.2
      (some "this text is long enough") (by decide)

/-! ## Claim C1 -/

/-- The concrete OCR text of the C1 counterexample: 44 characters, containing
an SCU ID, a total amount, and the substring `LIMITED\nmuasya`. -/
def muasyaText : String := "SCU ID: AB123 Total Amount: 7 LIMITED\nmuasya"

/-- The behaviour of Python `re.search` (flags `IGNORECASE | MULTILINE |
DOTALL`) on `muasyaText`, recorded pattern by pattern: the first
invoice-number pattern matches with group 1 `"AB123"`, the first amount
pattern matches with group 1 `"7"`, and the third buyer-name pattern
`LIMITED\s*\nmuasya` matches with NO capture groups (`lastindex = None`);
every other configured pattern fails, as the text contains no date, no `PIN`,
no `@`/`email`/`gmail`, no `KRAS`, no `WAMBUA`/`PERSON NAME`, no
`Receipt Signature` and no `CU Invoice Number` label. -/
def reSearchMuasya (pat text : String) : Option ReMatch :=
  if text = muasyaText then
    if pat = invNumPat1 then some { groups := [some "AB123"], lastindex := some 1 }
    else if pat = amtPat1 then some { groups := [some "7"], lastindex := some 1 }
    else if pat = buyerNamePat3 then some { groups := [], lastindex := none }
    else none
  else none

/-- C1: refuted by the code.  On `muasyaText` (past the length short-circuit)
both core fields are extracted — `invoice_number = "AB123"`,
`invoice_amount = 7` — yet `extraction_success` is `false`: the buyer-name
fallback pattern `LIMITED\s*\nmuasya` has no capture group, so
`extract_buyer_details` raises `IndexError("no such group")` at
`match.group(1)`; `parse_invoice` catches it, records
`"Error parsing invoice: no such group"`, and returns before the success flag
is computed.  The claimed equivalence `extraction_success ↔ core fields
non-null` therefore fails on this input (the claim matches the spec and the
success logic of lines 380-397; the group-less pattern is the code slip). -/
theorem c1_success_iff_defeated :
    (parse_invoice reSearchMuasya (some muasyaText)).invoice_number = some "AB123"
    ∧ (parse_invoice reSearchMuasya (some muasyaText)).invoice_amount = some 7
    ∧ (parse_invoice reSearchMuasya (some muasyaText)).extraction_success = false
    ∧ (parse_invoice reSearchMuasya (some muasyaText)).extraction_errors
        = ["Error parsing invoice: no such group"] := by
  exact ⟨by decide, by decide, by decide, by decide⟩
